import Mathlib

/-!
Verification development for the `Tag` UI component
(`src/components/tag/index.tsx`).

The component is shallowly embedded: rendering becomes a pure function
from props, ambient context and the current local `visible` state to a
`RenderedTag` record (class list, inline background color, content
nodes, resolved close icon, wave wrapping); the close-click handler
becomes a pure function over an explicit event record; the interplay of
the React `useState`/`useEffect` pair with close clicks becomes a small
state machine (`TagState`, `step`, `run`) in which a render event fires
the effect exactly when its dependency (`props.visible`) differs from
the one stored at the previous render, as React's dependency-array
semantics prescribe.

External modules that the file imports but that are not part of the
source tree (`isPresetColor` / `isPresetStatusColor` from `_util/colors`,
`useClosable` from `_util/hooks/useClosable`, `getPrefixCls` from the
config provider) are either taken as oracle parameters (the color
classifiers, over which the theorems quantify) or modelled from the
specification (see the doc comments marked `Modelled from the spec:`).
-/

/-- A renderable node: an element with a tag name and children, or text.
Models the `React.ReactNode` values that appear as `children`, `icon`
and close icons. -/
inductive Node where
  | element (tag : String) (children : List Node)
  | text (s : String)

/-- A DOM-like mouse event as observed by `handleCloseClick`: whether
propagation has been stopped and whether the default has been
prevented. Both flags are monotone in the DOM (they can be set, never
cleared). -/
structure CloseEvent where
  propagationStopped : Bool
  defaultPrevented : Bool
deriving DecidableEq, Repr

/-- The observable effect of an `onClose` callback on the event it
receives: whether it calls `preventDefault` and whether it additionally
calls `stopPropagation`. DOM event flags are monotone, so a callback is
fully described by which flags it sets. -/
structure CallbackEffect where
  setsDefaultPrevented : Bool
  setsPropagationStopped : Bool
deriving DecidableEq, Repr

/-- Apply a callback's effect to the event it was invoked on (flags are
or-ed in, matching DOM monotonicity). -/
def applyEffect (eff : CallbackEffect) (e : CloseEvent) : CloseEvent :=
  { propagationStopped := e.propagationStopped || eff.setsPropagationStopped
    defaultPrevented := e.defaultPrevented || eff.setsDefaultPrevented }

/-- Result of one close-control click: the final state of the event,
the event as passed to the `onClose` callback at the moment it was
invoked (`none` when no callback was supplied), and the new local
visibility. -/
structure CloseResult where
  event : CloseEvent
  callbackInvokedWith : Option CloseEvent
  visible : Bool
deriving DecidableEq, Repr

/-- Embedding of `handleCloseClick` (src/components/tag/index.tsx,
lines 101-109): `e.stopPropagation()`, then `onClose?.(e)`, then if
`e.defaultPrevented` return (visibility unchanged), else
`setVisible(false)`. -/
def handleCloseClick (onClose : Option CallbackEffect) (e : CloseEvent)
    (visible : Bool) : CloseResult :=
  let e1 : CloseEvent := { e with propagationStopped := true }
  match onClose with
  | none =>
      if e1.defaultPrevented then
        { event := e1, callbackInvokedWith := none, visible := visible }
      else
        { event := e1, callbackInvokedWith := none, visible := false }
  | some eff =>
      let e2 := applyEffect eff e1
      if e2.defaultPrevented then
        { event := e2, callbackInvokedWith := some e1, visible := visible }
      else
        { event := e2, callbackInvokedWith := some e1, visible := false }

/-- JS truthiness of an optional string (absent and `""` are falsy),
as used by `color && ...` and by `classNames` argument filtering. -/
def truthyStr : Option String → Bool
  | none => false
  | some s => if s = "" then false else true

/-- The `backgroundColor` contribution of the `color` prop in
`tagStyle`: `color && !isInternalColor ? color : undefined`. -/
def colorBackground (color : Option String) (internal : Bool) : Option String :=
  if truthyStr color && !internal then color else none

/-- The object spread building `tagStyle` (color contribution, then
`...tag?.style`, then `...style`), restricted to the background-color
key: the per-instance `style` wins over the context `tag?.style`, which
wins over the color contribution. -/
def mergeStyleBg (colorBg ctxBg styleBg : Option String) : Option String :=
  match styleBg with
  | some s => some s
  | none =>
      match ctxBg with
      | some s => some s
      | none => colorBg

/-- The class contributed by the preset-color switch
(the object entry keyed by the prefix, a dash and the color, enabled
when `isInternalColor`). JS string interpolation of an absent color
yields the text `undefined`. -/
def presetColorClass (pfx : String) (color : Option String)
    (internal : Bool) : List String :=
  if internal then [pfx ++ "-" ++ (color.getD "undefined")] else []

/-- The class contributed by the arbitrary-color branch (the
`has-color` entry, enabled when the color is truthy and not internal). -/
def hasColorClass (pfx : String) (color : Option String)
    (internal : Bool) : List String :=
  if truthyStr color && !internal then [pfx ++ "-has-color"] else []

/-- `classNames` drops falsy arguments (absent or empty strings). -/
def optClass : Option String → List String
  | none => []
  | some s => if s = "" then [] else [s]

/-- Embedding of the `tagClassName` computation
(src/components/tag/index.tsx, lines 85-99) as the list of class tokens
produced by the `classNames` call, in argument order. -/
def tagClassName (pfx : String) (ctxClassName : Option String)
    (color : Option String) (internal visible rtl bordered : Bool)
    (className rootClassName hashId cssVarCls : Option String) : List String :=
  [pfx] ++ optClass ctxClassName
    ++ presetColorClass pfx color internal
    ++ hasColorClass pfx color internal
    ++ (if !visible then [pfx ++ "-hidden"] else [])
    ++ (if rtl then [pfx ++ "-rtl"] else [])
    ++ (if !bordered then [pfx ++ "-borderless"] else [])
    ++ optClass className ++ optClass rootClassName
    ++ optClass hashId ++ optClass cssVarCls

/-- The `closable` prop: a boolean, or a configuration object possibly
carrying a close icon (ARIA attributes are not observable here). -/
inductive ClosableProp where
  | flag (b : Bool)
  | config (closeIcon : Option Node)

/-- Modelled from the spec: the `useClosable` hook from
`_util/hooks/useClosable` is not under `src/`. Per the spec, `closable`
is "boolean or object with icon/ARIA attributes", the component passes
`defaultClosable: false` and the global tag context as fallback, and
"omitting closable renders no close control". The resolution order is
prop `closable`, then prop `closeIcon`, then the context configuration,
then the default. Returns whether a close control is rendered and the
resolved icon node. -/
def useClosable (closable : Option ClosableProp) (closeIcon : Option Node)
    (contextClosable : Option ClosableProp) (contextCloseIcon : Option Node)
    (defaultClosable : Bool) : Bool × Option Node :=
  let defaultIcon : Node := Node.text "close"
  match closable with
  | some (ClosableProp.flag false) => (false, none)
  | some (ClosableProp.flag true) =>
      (true, some (closeIcon.getD (contextCloseIcon.getD defaultIcon)))
  | some (ClosableProp.config ci) =>
      (true, some (ci.getD (closeIcon.getD (contextCloseIcon.getD defaultIcon))))
  | none =>
      match closeIcon with
      | some i => (true, some i)
      | none =>
          match contextClosable with
          | some (ClosableProp.flag false) => (false, none)
          | some (ClosableProp.flag true) =>
              (true, some (contextCloseIcon.getD defaultIcon))
          | some (ClosableProp.config ci) =>
              (true, some (ci.getD (contextCloseIcon.getD defaultIcon)))
          | none =>
              match contextCloseIcon with
              | some i => (true, some i)
              | none =>
                  (defaultClosable,
                    if defaultClosable then some defaultIcon else none)

/-- Modelled from the spec: `getPrefixCls` comes from the config
provider (not under `src/`); it yields the ambient prefix/theming
class, defaulting to the library's tag prefix when no customization is
supplied. -/
def getPrefixCls (customizePrefixCls : Option String) : String :=
  customizePrefixCls.getD "ant-tag"

/-- `children && (children as ReactElement).type === 'a'`: the child is
an element whose type is the anchor tag. Text nodes have no `type`. -/
def childIsLink : Option Node → Bool
  | some (Node.element t _) => t = "a"
  | some (Node.text _) => false
  | none => false

/-- Embedding of `isNeedWave` (src/components/tag/index.tsx, lines
132-134): an `onClick` function is supplied, or the child is a link
element. -/
def isNeedWave (onClickIsFunction : Bool) (children : Option Node) : Bool :=
  onClickIsFunction || childIsLink children

/-- Embedding of the `kids` computation (src/components/tag/index.tsx,
lines 136-145): with an icon, the icon followed by the children wrapped
in a span (span omitted when children are absent); without an icon, the
children directly, unwrapped. -/
def kidsOf (icon : Option Node) (children : Option Node) : List Node :=
  match icon with
  | some i =>
      i :: (match children with
            | some c => [Node.element "span" [c]]
            | none => [])
  | none =>
      match children with
      | some c => [c]
      | none => []

/-- The props of a tag instance, restricted to what the embedding
observes. `styleBg` is the background-color key of the `style` prop;
`visibleProp` is `some b` when the deprecated `visible` prop is present
with value `b`; `onClickIsFunction` is the result of the
`typeof props.onClick === 'function'` test. -/
structure TagProps where
  prefixCls : Option String := none
  className : Option String := none
  rootClassName : Option String := none
  styleBg : Option String := none
  children : Option Node := none
  icon : Option Node := none
  color : Option String := none
  closeIcon : Option Node := none
  closable : Option ClosableProp := none
  bordered : Option Bool := none
  visibleProp : Option Bool := none
  onClickIsFunction : Bool := false

/-- The ambient `ConfigContext` data the component reads: text
direction and the global `tag` defaults (className, style background,
closable configuration, close icon). -/
structure TagContext where
  rtl : Bool := false
  tagClassName : Option String := none
  tagStyleBg : Option String := none
  tagClosable : Option ClosableProp := none
  tagCloseIcon : Option Node := none

/-- The observable rendered output of the component for one render
pass. -/
structure RenderedTag where
  classes : List String
  backgroundColor : Option String
  kids : List Node
  closeIcon : Option Node
  hasPresetCmp : Bool
  hasStatusCmp : Bool
  waveWrapped : Bool

/-- Embedding of one render pass of `InternalTag`
(src/components/tag/index.tsx): `ip` and `is` are the external
`isPresetColor` / `isPresetStatusColor` classifiers from `_util/colors`
(oracle parameters; the theorems quantify over them), `visible` is the
current local state, `hashId` and `cssVarCls` come from `useStyle`. -/
def renderTag (ip is : String → Bool) (ctx : TagContext) (p : TagProps)
    (visible : Bool) (hashId cssVarCls : Option String) : RenderedTag :=
  let pfx := getPrefixCls p.prefixCls
  let isPreset := match p.color with | some c => ip c | none => false
  let isStatus := match p.color with | some c => is c | none => false
  let internal := isPreset || isStatus
  let bordered := p.bordered.getD true
  { classes := tagClassName pfx ctx.tagClassName p.color internal visible
      ctx.rtl bordered p.className p.rootClassName hashId cssVarCls
    backgroundColor :=
      mergeStyleBg (colorBackground p.color internal) ctx.tagStyleBg p.styleBg
    kids := kidsOf p.icon p.children
    closeIcon :=
      (useClosable p.closable p.closeIcon ctx.tagClosable ctx.tagCloseIcon
        false).2
    hasPresetCmp := isPreset
    hasStatusCmp := isStatus
    waveWrapped := isNeedWave p.onClickIsFunction p.children }

/-- Embedding of the deprecation warning (src/components/tag/index.tsx,
lines 59-63): `warning.deprecated(!('visible' in props), ...)` emits
exactly when the `visible` prop is present, and the whole block is
guarded by `process.env.NODE_ENV !== 'production'`. -/
def devUseWarningVisible (prod : Bool) (p : TagProps) : List String :=
  if prod then []
  else if p.visibleProp.isSome then ["deprecated: visible"] else []

/-- A render pass together with the warnings it emits, parameterized by
the build mode (`prod = true` models `NODE_ENV === 'production'`). -/
def renderWithWarnings (prod : Bool) (ip is : String → Bool)
    (ctx : TagContext) (p : TagProps) (visible : Bool)
    (hashId cssVarCls : Option String) : RenderedTag × List String :=
  (renderTag ip is ctx p visible hashId cssVarCls, devUseWarningVisible prod p)

/-- The component's persistent state across renders: the local
`visible` flag from `useState(true)`, and the dependency value
(`props.visible`) stored by the `useEffect` at its last run opportunity
(`none` before the first render). -/
structure TagState where
  visible : Bool
  lastDeps : Option (Option Bool)
deriving DecidableEq, Repr

/-- Initial state: `useState(true)`, effect not yet run. -/
def initState : TagState := { visible := true, lastDeps := none }

/-- An externally observable event in the tag's life: a render with the
given `visible` prop (`none` when the prop is absent), or a click on
the close control with the given `onClose` callback and incoming
event. -/
inductive TagEvent where
  | render (visibleProp : Option Bool)
  | closeClick (onClose : Option CallbackEffect) (e : CloseEvent)
deriving DecidableEq, Repr

/-- One step of the component's state. A render runs the `useEffect`
body (`if ('visible' in props) setVisible(props.visible)`) exactly when
its dependency array `[props.visible]` differs from the previous
render's (React always runs the effect after the first render). A close
click runs `handleCloseClick`. -/
def step (s : TagState) : TagEvent → TagState
  | TagEvent.render v? =>
      if s.lastDeps = some v? then s
      else { visible := v?.getD s.visible, lastDeps := some v? }
  | TagEvent.closeClick cb e =>
      { s with visible := (handleCloseClick cb e s.visible).visible }

/-- Run the component from its initial state through a sequence of
events. -/
def run (evts : List TagEvent) : TagState :=
  evts.foldl step initState

/-! ## Theorems for the claims -/

/-- C1 (counterexample): with the controlled `visible` prop supplied as
`true` at the first render, a single close-control click (no callback,
default not prevented) still drives the local state to hidden, because
the `useEffect` dependency `props.visible` has not changed since the
last render and the effect therefore does not re-run. The displayed
state (`false`) does not equal the host-supplied prop value (`true`),
refuting the claim that it always does. -/
theorem tag_controlled_visibility_counterexample :
    ¬ ((run [TagEvent.render (some true),
             TagEvent.closeClick none
               { propagationStopped := false, defaultPrevented := false }]).visible
        = true) := by
  decide

/-- C1 (amended): with the controlled `visible` prop present, the local
state is synchronized to the prop value at mount and at every render at
which the dependency `props.visible` differs from the previously stored
one; between such changes, a close-control click whose event ends up
with its default unprevented — with or without an `onClose` callback —
still sets the local state to hidden. -/
theorem tag_controlled_visibility_sync (s : TagState) (b : Bool)
    (cb : Option CallbackEffect) (e : CloseEvent) :
    (s.lastDeps ≠ some (some b) →
      (step s (TagEvent.render (some b))).visible = b) ∧
    ((handleCloseClick cb e s.visible).event.defaultPrevented = false →
      (step s (TagEvent.closeClick cb e)).visible = false) := by
  constructor
  · intro h
    simp [step, h]
  · intro h
    cases cb with
    | none =>
        by_cases hd : e.defaultPrevented = true
        · exact absurd h (by simp [handleCloseClick, hd])
        · simp only [Bool.not_eq_true] at hd
          simp [step, handleCloseClick, hd]
    | some eff =>
        by_cases hd : (e.defaultPrevented || eff.setsDefaultPrevented) = true
        · exact absurd h (by simp [handleCloseClick, applyEffect, hd])
        · simp [step, handleCloseClick, applyEffect, hd]

/-- Witness for `tag_controlled_visibility_sync` at a concrete state
and inputs, with a callback supplied on the close click. -/
theorem tag_controlled_visibility_sync_witness :
    (step initState (TagEvent.render (some false))).visible = false ∧
    (step initState (TagEvent.closeClick
      (some { setsDefaultPrevented := false, setsPropagationStopped := false })
      { propagationStopped := false, defaultPrevented := false })).visible = false :=
  ⟨(tag_controlled_visibility_sync initState false
      (some { setsDefaultPrevented := false, setsPropagationStopped := false })
      { propagationStopped := false, defaultPrevented := false }).1 (by decide),
   (tag_controlled_visibility_sync initState false
      (some { setsDefaultPrevented := false, setsPropagationStopped := false })
      { propagationStopped := false, defaultPrevented := false }).2 (by decide)⟩

/-- C2: after any sequence of events, a close-control click with no
`onClose` callback and an unprevented event leaves the local `visible`
flag `false`, and the tag is then rendered with the hidden class in its
class list. -/
theorem tag_close_click_hides_without_callback
    (evts : List TagEvent) (e : CloseEvent) (ip is : String → Bool)
    (ctx : TagContext) (p : TagProps) (hashId cssVarCls : Option String)
    (h : e.defaultPrevented = false) :
    (run (evts ++ [TagEvent.closeClick none e])).visible = false ∧
    (getPrefixCls p.prefixCls ++ "-hidden") ∈
      (renderTag ip is ctx p
        (run (evts ++ [TagEvent.closeClick none e])).visible
        hashId cssVarCls).classes := by
  have hv : (run (evts ++ [TagEvent.closeClick none e])).visible = false := by
    simp [run, List.foldl_append, step, handleCloseClick, h]
  refine ⟨hv, ?_⟩
  rw [hv]
  simp [renderTag, tagClassName]

/-- Witness for `tag_close_click_hides_without_callback` at concrete
inputs. -/
theorem tag_close_click_hides_without_callback_witness :
    (run ([] ++ [TagEvent.closeClick none
        { propagationStopped := false, defaultPrevented := false }])).visible = false ∧
    (getPrefixCls ({} : TagProps).prefixCls ++ "-hidden") ∈
      (renderTag (fun _ => false) (fun _ => false) {} {}
        (run ([] ++ [TagEvent.closeClick none
          { propagationStopped := false, defaultPrevented := false }])).visible
        none none).classes :=
  tag_close_click_hides_without_callback []
    { propagationStopped := false, defaultPrevented := false }
    (fun _ => false) (fun _ => false) {} {} none none rfl

/-- C3: when the `onClose` callback prevents the event's default, the
visibility state is left unchanged; the callback is invoked with the
event after propagation has been stopped (so before the prevented-check
is made), and the final event carries the prevented flag. -/
theorem tag_prevented_close_keeps_visible
    (eff : CallbackEffect) (e : CloseEvent) (v : Bool)
    (h : eff.setsDefaultPrevented = true) :
    (handleCloseClick (some eff) e v).visible = v ∧
    (handleCloseClick (some eff) e v).callbackInvokedWith =
      some { e with propagationStopped := true } ∧
    (handleCloseClick (some eff) e v).event.defaultPrevented = true := by
  simp [handleCloseClick, applyEffect, h]

/-- Witness for `tag_prevented_close_keeps_visible` at concrete
inputs. -/
theorem tag_prevented_close_keeps_visible_witness :
    (handleCloseClick (some { setsDefaultPrevented := true, setsPropagationStopped := false })
      { propagationStopped := false, defaultPrevented := false } true).visible = true ∧
    (handleCloseClick (some { setsDefaultPrevented := true, setsPropagationStopped := false })
      { propagationStopped := false, defaultPrevented := false } true).callbackInvokedWith =
      some { propagationStopped := true, defaultPrevented := false } ∧
    (handleCloseClick (some { setsDefaultPrevented := true, setsPropagationStopped := false })
      { propagationStopped := false, defaultPrevented := false } true).event.defaultPrevented = true :=
  tag_prevented_close_keeps_visible
    { setsDefaultPrevented := true, setsPropagationStopped := false }
    { propagationStopped := false, defaultPrevented := false } true rfl

/-- C4: when the color is classified as a preset palette or preset
status color, the rendered class list contains the class formed from
the prefix and the color name, and the color prop contributes nothing
to the inline background (the merged background is exactly what the
context and per-instance styles supply). -/
theorem tag_preset_color_class_and_no_inline_background
    (ip is : String → Bool) (ctx : TagContext) (p : TagProps) (c : String)
    (v : Bool) (hashId cssVarCls : Option String)
    (hc : p.color = some c) (hint : (ip c || is c) = true) :
    (getPrefixCls p.prefixCls ++ "-" ++ c) ∈
      (renderTag ip is ctx p v hashId cssVarCls).classes ∧
    (renderTag ip is ctx p v hashId cssVarCls).backgroundColor =
      mergeStyleBg none ctx.tagStyleBg p.styleBg := by
  constructor
  · simp [renderTag, tagClassName, presetColorClass, hc, hint]
  · simp [renderTag, colorBackground, hc, hint]

/-- Witness for `tag_preset_color_class_and_no_inline_background` at
concrete inputs. -/
theorem tag_preset_color_class_and_no_inline_background_witness :
    (getPrefixCls ({ color := some "red" } : TagProps).prefixCls ++ "-" ++ "red") ∈
      (renderTag (fun _ => true) (fun _ => false) {} { color := some "red" }
        true none none).classes ∧
    (renderTag (fun _ => true) (fun _ => false) {} { color := some "red" }
      true none none).backgroundColor =
      mergeStyleBg none ({} : TagContext).tagStyleBg
        ({ color := some "red" } : TagProps).styleBg :=
  tag_preset_color_class_and_no_inline_background
    (fun _ => true) (fun _ => false) {} { color := some "red" } "red"
    true none none rfl rfl

/-- C5: when the color is non-empty and classified neither as a preset
palette nor as a preset status color, the merged inline background (no
context or per-instance style overrides) is exactly that color value,
the class list contains the has-color class, and the preset-color class
switch contributes no class. -/
theorem tag_arbitrary_color_inline_background
    (ip is : String → Bool) (ctx : TagContext) (p : TagProps) (c : String)
    (v : Bool) (hashId cssVarCls : Option String)
    (hc : p.color = some c) (hne : c ≠ "")
    (hp : ip c = false) (hs : is c = false)
    (hctx : ctx.tagStyleBg = none) (hst : p.styleBg = none) :
    (renderTag ip is ctx p v hashId cssVarCls).backgroundColor = some c ∧
    (getPrefixCls p.prefixCls ++ "-has-color") ∈
      (renderTag ip is ctx p v hashId cssVarCls).classes ∧
    presetColorClass (getPrefixCls p.prefixCls) p.color (ip c || is c) = [] := by
  refine ⟨?_, ?_, ?_⟩
  · simp [renderTag, mergeStyleBg, colorBackground, truthyStr, hc, hp, hs, hctx, hst, hne]
  · simp [renderTag, tagClassName, hasColorClass, truthyStr, hc, hp, hs, hne]
  · simp [presetColorClass, hp, hs]

/-- Witness for `tag_arbitrary_color_inline_background` at concrete
inputs. -/
theorem tag_arbitrary_color_inline_background_witness :
    (renderTag (fun _ => false) (fun _ => false) {} { color := some "#2db7f5" }
      true none none).backgroundColor = some "#2db7f5" ∧
    (getPrefixCls ({ color := some "#2db7f5" } : TagProps).prefixCls ++ "-has-color") ∈
      (renderTag (fun _ => false) (fun _ => false) {} { color := some "#2db7f5" }
        true none none).classes ∧
    presetColorClass (getPrefixCls ({ color := some "#2db7f5" } : TagProps).prefixCls)
      ({ color := some "#2db7f5" } : TagProps).color
      ((fun _ => false) "#2db7f5" || (fun _ => false) "#2db7f5") = [] :=
  tag_arbitrary_color_inline_background
    (fun _ => false) (fun _ => false) {} { color := some "#2db7f5" } "#2db7f5"
    true none none rfl (by decide) rfl rfl rfl rfl

/-- C6: with the `closable` prop omitted, no `closeIcon` prop, and no
closable configuration in the ambient tag context, the resolved close
icon is absent, so no close control appears in the rendered output. -/
theorem tag_no_close_control_when_closable_omitted
    (ip is : String → Bool) (ctx : TagContext) (p : TagProps) (v : Bool)
    (hashId cssVarCls : Option String)
    (h1 : p.closable = none) (h2 : p.closeIcon = none)
    (h3 : ctx.tagClosable = none) (h4 : ctx.tagCloseIcon = none) :
    (renderTag ip is ctx p v hashId cssVarCls).closeIcon = none := by
  simp [renderTag, useClosable, h1, h2, h3, h4]

/-- Witness for `tag_no_close_control_when_closable_omitted` at
concrete inputs. -/
theorem tag_no_close_control_when_closable_omitted_witness :
    (renderTag (fun _ => false) (fun _ => false) {} {} true none none).closeIcon = none :=
  tag_no_close_control_when_closable_omitted
    (fun _ => false) (fun _ => false) {} {} true none none rfl rfl rfl rfl

/-- C7: the rendered node is wrapped in the wave (ripple/feedback)
wrapper exactly when an `onClick` handler function is supplied or the
child is a link element. -/
theorem tag_wave_iff_clickable_or_link
    (ip is : String → Bool) (ctx : TagContext) (p : TagProps) (v : Bool)
    (hashId cssVarCls : Option String) :
    (renderTag ip is ctx p v hashId cssVarCls).waveWrapped = true ↔
      (p.onClickIsFunction = true ∨ childIsLink p.children = true) := by
  simp [renderTag, isNeedWave]

/-- C8: the deprecation warning for the `visible` prop has no effect on
the rendered output (production and development renders are identical),
is never emitted in production builds, and in development builds is
emitted exactly when the `visible` prop is present. -/
theorem tag_visible_warning_dev_only_no_behavior_effect
    (prod : Bool) (ip is : String → Bool) (ctx : TagContext) (p : TagProps)
    (v : Bool) (hashId cssVarCls : Option String) :
    (renderWithWarnings prod ip is ctx p v hashId cssVarCls).1 =
      (renderWithWarnings true ip is ctx p v hashId cssVarCls).1 ∧
    (renderWithWarnings true ip is ctx p v hashId cssVarCls).2 = [] ∧
    (renderWithWarnings false ip is ctx p v hashId cssVarCls).2 =
      (if p.visibleProp.isSome then ["deprecated: visible"] else []) := by
  exact ⟨rfl, rfl, rfl⟩

/-- C9: the rendered content is the `kids` composition; with an icon it
is the icon followed by the children wrapped in a span (the span
omitted when children are absent), and without an icon it is the
children directly with no extra wrapper. -/
theorem tag_icon_label_composition
    (ip is : String → Bool) (ctx : TagContext) (p : TagProps) (v : Bool)
    (hashId cssVarCls : Option String) (i : Node) (children : Option Node) :
    (renderTag ip is ctx p v hashId cssVarCls).kids = kidsOf p.icon p.children ∧
    kidsOf (some i) children =
      i :: (match children with
            | some c => [Node.element "span" [c]]
            | none => []) ∧
    kidsOf none children =
      (match children with | some c => [c] | none => []) := by
  exact ⟨rfl, rfl, rfl⟩

/-- C10: a close-control click stops propagation unconditionally: the
final event always has propagation stopped, and whenever a callback is
supplied it is invoked with the event already carrying the stopped
flag, regardless of whether the default gets prevented. -/
theorem tag_close_click_stops_propagation
    (cb : Option CallbackEffect) (e : CloseEvent) (v : Bool) :
    (handleCloseClick cb e v).event.propagationStopped = true ∧
    (handleCloseClick cb e v).callbackInvokedWith =
      (match cb with
       | none => none
       | some _ => some { e with propagationStopped := true }) := by
  cases cb <;> simp only [handleCloseClick] <;> split <;> simp [applyEffect]
